import Mathlib

/-!
Verification of the weekly tide-table retrieval and parsing pipeline of the
tidesapp scraper (src/tides/tidesapp).  The Python sources are shallowly
embedded: pure functions become Lean functions, exceptions become `Except`,
Python dynamic typing is modelled with `PyVal` where the distinction between
an `int` and a `str` value decides behaviour, and the Selenium collaborator
of the search-retry loop is modelled as an oracle giving the outcome of each
wait.
-/

namespace Tidesapp

/-- Kinds of Python exceptions raised by the embedded code.  `valueError`,
`keyError`, `typeError` and `attributeError` are the builtin exceptions of
those names; `timeoutError` is the builtin `TimeoutError`;
`timeoutException` is selenium's `TimeoutException` raised by
`WebDriverWait.until`; `stopIteration` is raised by an exhausted
generator. -/
inductive PyErr where
  | valueError
  | keyError
  | typeError
  | attributeError
  | timeoutError
  | timeoutException
  | stopIteration
deriving DecidableEq

/-- A Python runtime value, as far as the embedded code needs dynamic
typing: `day2datetime` receives either an `int` (as in its unit tests) or a
`str` (as `parse_high_tide_data` passes the regex group), and its behaviour
differs. -/
inductive PyVal where
  | int (n : Int)
  | str (s : String)
deriving DecidableEq

/-- A calendar date, the embedding of Python `datetime.date`
(`date.today()` in `day2datetime`). -/
structure Date where
  year : Nat
  month : Nat
  day : Nat
deriving DecidableEq

/-- A timestamp, the embedding of Python `datetime.datetime` with the
resolution the pipeline uses (seconds and microseconds are always zero). -/
structure DateTime where
  year : Nat
  month : Nat
  day : Nat
  hour : Nat
  minute : Nat
deriving DecidableEq

/-- Gregorian leap-year rule, as implemented by Python `datetime`. -/
def isLeapYear (y : Nat) : Bool :=
  (y % 4 == 0 && y % 100 != 0) || y % 400 == 0

/-- Number of days of month `m` of year `y`, as validated by the Python
`datetime` constructor. -/
def daysInMonth (y m : Nat) : Nat :=
  if m = 2 then (if isLeapYear y then 29 else 28)
  else if m = 4 ∨ m = 6 ∨ m = 9 ∨ m = 11 then 30
  else 31

/-- Python `<` on runtime values: comparing an `int` with a `str` raises
`TypeError`, as in Python 3. -/
def pyLt : PyVal → PyVal → Except PyErr Bool
  | .int a, .int b => .ok (decide (a < b))
  | .str a, .str b => .ok (decide (a < b))
  | _, _ => .error .typeError

/-- The Python constructor `datetime(year, month, day)`: the day argument
must be an `int` (a `str` raises `TypeError`) and the fields must form a
valid date in years 1..9999, otherwise `ValueError` is raised. -/
def pyDatetime (y m : Nat) (d : PyVal) : Except PyErr DateTime :=
  match d with
  | .str _ => .error .typeError
  | .int dd =>
    if 1 ≤ y ∧ y ≤ 9999 ∧ 1 ≤ m ∧ m ≤ 12 ∧ 1 ≤ dd ∧ dd ≤ (daysInMonth y m : Int) then
      .ok ⟨y, m, dd.toNat, 0, 0⟩
    else .error .valueError

/-- Embedding of `datetime_utils.day2datetime`: resolve a bare day-of-month
against `today`.  If the queried day is smaller than today's day the month
is bumped, and a month beyond 12 wraps to January of the next year; finally
`datetime(queried_year, queried_month, queried_day)` is built.  The
`queried_day` argument is a `PyVal` because the source is called both with
ints (its unit tests) and with a regex-group string
(`parse_high_tide_data`); the first use of the argument is the comparison
`queried_day < today_datetime.day`. -/
def day2datetime (today : Date) (queried_day : PyVal) : Except PyErr DateTime := do
  let queried_month := today.month
  let queried_year := today.year
  let bump ← pyLt queried_day (.int today.day)
  let queried_month := if bump then queried_month + 1 else queried_month
  let (queried_month, queried_year) :=
    if queried_month > 12 then (1, queried_year + 1) else (queried_month, queried_year)
  pyDatetime queried_year queried_month queried_day

/-- Embedding of the `backoff` generator of `tidesapp_viaSelenium.py`: the
full (finite) sequence of values it yields, namely the eight-element table
repeated 10000 times (`sleeps = [2, 4, 8, 12, 20, 32, 48, 64] * 10000`). -/
def backoff : List Nat :=
  (List.replicate 10000 [2, 4, 8, 12, 20, 32, 48, 64]).flatten

/-- The value produced by the n-th `next()` call on the `backoff` generator
(0-based); `none` models the `StopIteration` of the exhausted generator. -/
def backoffNth (n : Nat) : Option Nat :=
  backoff.get? n

/-- Embedding of `TidesApp.MAX_TIMEOUTS`. -/
def MAX_TIMEOUTS : Nat := 10

/-! ### The row grammar

`TidesApp.parse_high_tide_data` matches one table row against a fixed
regular expression (`re.match`, so anchored at the start; the pattern ends
in `$` and the row text has had every newline replaced by a space, so the
whole string must match).  The pattern is embedded as a deterministic
scanner over the character list.  This is faithful because every
backtracking choice point of the pattern is decided by disjoint first
characters: `\d`, `\s`, the two triangle glyphs, `ft`, `am`/`pm` and `:`
can never stand for one another, and the optional fourth tide group starts
with a digit while its continuation starts with the up-triangle glyph. -/

/-- Python `\s`, fixed to the ASCII whitespace characters.  In Python a
str-pattern `\s` additionally matches non-ASCII unicode whitespace; the
rows the site renders and every row of the docstrings and tests are
ASCII-spaced, and the embedding fixes the ASCII class. -/
def pyIsWs (c : Char) : Bool :=
  c = ' ' || c = '\t' || c = '\n' || c = '\r' || c = '\x0b' || c = '\x0c'

/-- Python `\d`, fixed to the ASCII digits (a str-pattern `\d` would also
match unicode digits, which the site's rows never contain). -/
def pyIsDigit (c : Char) : Bool :=
  c.isDigit

/-- Consume `\s*`. -/
def dropWs (cs : List Char) : List Char :=
  cs.dropWhile pyIsWs

/-- Consume `\s+`: at least one whitespace character, then all following
whitespace. -/
def reqWs1 : List Char → Option (List Char)
  | c :: cs => if pyIsWs c then some (cs.dropWhile pyIsWs) else none
  | [] => none

/-- Consume `\d+`, returning the matched digits. -/
def reqDigits1 (cs : List Char) : Option (String × List Char) :=
  match cs.takeWhile pyIsDigit with
  | [] => none
  | ds => some (String.mk ds, cs.dropWhile pyIsDigit)

/-- Consume one fixed character. -/
def reqChar (c : Char) : List Char → Option (List Char)
  | x :: xs => if x = c then some xs else none
  | [] => none

/-- Consume a fixed string. -/
def reqToken (s : String) (cs : List Char) : Option (List Char) :=
  if s.data.isPrefixOf cs then some (cs.drop s.data.length) else none

/-- The weekday alternation `Mon|Tue|Wed|Thu|Fri|Sat|Sun`. -/
def dayNames : List String :=
  ["Mon", "Tue", "Wed", "Thu", "Fri", "Sat", "Sun"]

/-- Consume the weekday group. -/
def matchDay (cs : List Char) : Option (String × List Char) :=
  dayNames.findSome? fun d => (reqToken d cs).map fun r => (d, r)

/-- Consume a clock-time group `\d+:\d\d\s*(?:am|pm)`, returning the whole
matched text (as the named regex group captures it). -/
def matchTime (cs : List Char) : Option (String × List Char) := do
  let (h, cs1) ← reqDigits1 cs
  let cs2 ← reqChar ':' cs1
  match cs2 with
  | m1 :: m2 :: cs3 =>
    if pyIsDigit m1 && pyIsDigit m2 then
      let ws := cs3.takeWhile pyIsWs
      let cs4 := cs3.dropWhile pyIsWs
      match reqToken "am" cs4 with
      | some cs5 => some (h ++ ":" ++ String.mk [m1, m2] ++ String.mk ws ++ "am", cs5)
      | none =>
        match reqToken "pm" cs4 with
        | some cs5 => some (h ++ ":" ++ String.mk [m1, m2] ++ String.mk ws ++ "pm", cs5)
        | none => none
    else none
  | _ => none

/-- Consume a height group `\d+(?:\.\d+|)`: digits, then a fractional part
only when a dot with at least one digit follows (otherwise the empty
alternative, leaving the dot unconsumed, exactly as the pattern
backtracks). -/
def matchHeight (cs : List Char) : Option (String × List Char) := do
  let (d1, cs1) ← reqDigits1 cs
  match cs1 with
  | '.' :: cs2 =>
    match reqDigits1 cs2 with
    | some (d2, cs3) => some (d1 ++ "." ++ d2, cs3)
    | none => some (d1, cs1)
  | _ => some (d1, cs1)

/-- One tide group of the row: time, direction glyph and height,
`time\s+(?:▲|▼)\s+height\s*ft\s+`. -/
structure TideGroup where
  time : String
  hilo : Char
  height : String
deriving DecidableEq

/-- Consume one tide group. -/
def matchTideGroup (cs : List Char) : Option (TideGroup × List Char) := do
  let (t, cs1) ← matchTime cs
  let cs2 ← reqWs1 cs1
  match cs2 with
  | c :: cs3 =>
    if c = '▲' || c = '▼' then do
      let cs4 ← reqWs1 cs3
      let (h, cs5) ← matchHeight cs4
      let cs6 ← reqToken "ft" (dropWs cs5)
      let cs7 ← reqWs1 cs6
      some (⟨t, c, h⟩, cs7)
    else none
  | [] => none

/-- The named groups the row pattern captures (heights and the weekday are
captured too; `tide4` is `none` when the optional fourth group matched the
empty alternative, making its groups `None` in Python). -/
structure RowGroups where
  day : String
  dayno : String
  tide1 : TideGroup
  tide2 : TideGroup
  tide3 : TideGroup
  tide4 : Option TideGroup
  sunrise : String
  sunset : String
deriving DecidableEq

/-- The full row pattern of `TidesApp.parse_high_tide_data`, anchored on
both sides: leading `\s*`, weekday, day number, three mandatory tide
groups, an optional fourth tide group, then `▲\s*sunrise\s+▼\s*sunset\s*$`.
Returns the captured groups, or `none` when `re.match` fails. -/
def rowRegexMatch (s : String) : Option RowGroups := do
  let cs0 := dropWs s.data
  let (day, cs1) ← matchDay cs0
  let cs2 ← reqWs1 cs1
  let (dayno, cs3) ← reqDigits1 cs2
  let cs4 ← reqWs1 cs3
  let (t1, cs5) ← matchTideGroup cs4
  let (t2, cs6) ← matchTideGroup cs5
  let (t3, cs7) ← matchTideGroup cs6
  let (t4, cs8) ←
    match cs7 with
    | c :: _ =>
      if pyIsDigit c then
        (matchTideGroup cs7).map fun g => (some g.1, g.2)
      else some ((none : Option TideGroup), cs7)
    | [] => some ((none : Option TideGroup), cs7)
  let cs9 ← reqChar '▲' cs8
  let (sunrise, cs10) ← matchTime (dropWs cs9)
  let cs11 ← reqWs1 cs10
  let cs12 ← reqChar '▼' cs11
  let (sunset, cs13) ← matchTime (dropWs cs12)
  match dropWs cs13 with
  | [] => some ⟨day, dayno, t1, t2, t3, t4, sunrise, sunset⟩
  | _ => none

/-! ### The row parser -/

/-- A clock time of day, as the Time Combiner consumes it. -/
structure ClockTime where
  hour : Nat
  minute : Nat
deriving DecidableEq

/-- Natural number denoted by a digit string. -/
def digitsToNat (ds : List Char) : Nat :=
  ds.foldl (fun a c => 10 * a + (c.toNat - '0'.toNat)) 0

/-- Modelled from the spec: `timestr2time` is imported by both scraper
modules from `datetime_utils`, but `datetime_utils.py` does not define it.
Per the spec (the Time Combiner of section 4.2 and the grammar of section
4.3) it parses a clock time such as `3:32am` or `3:32 am` (12-hour with an
am/pm marker) into hours and minutes, converting to a 24-hour clock. -/
def timestr2time (s : String) : ClockTime :=
  let cs := s.data
  let hds := cs.takeWhile pyIsDigit
  let rest := (cs.dropWhile pyIsDigit).drop 1
  let mds := rest.takeWhile pyIsDigit
  let marker := (rest.dropWhile pyIsDigit).dropWhile pyIsWs
  let h := digitsToNat hds
  let h24 :=
    if marker.head? = some 'p' then (if h = 12 then 12 else h + 12)
    else (if h = 12 then 0 else h)
  ⟨h24, digitsToNat mds⟩

/-- Modelled from the spec: `date_time_combine` is imported by both scraper
modules from `datetime_utils`, but `datetime_utils.py` does not define it.
Per the spec (section 4.2) it merges a resolved calendar date and a parsed
clock time into a single timestamp. -/
def date_time_combine (d : DateTime) (t : ClockTime) : DateTime :=
  { d with hour := t.hour, minute := t.minute }

/-- Embedding of the Python newline normalisation
`re.sub('\n', ' ', data)` performed before matching. -/
def pySubNewlines (s : String) : String :=
  String.mk (s.data.map fun c => if c = '\n' then ' ' else c)

/-- Embedding of `TidesApp.parse_high_tide_data` exactly as the source runs:
normalise newlines, match the row pattern (`ValueError` when it fails),
convert the day number with `day2datetime` — passing the regex group, which
is a string —, keep the up-glyph tide groups in text order, and require
between one and two of them (`ValueError` otherwise). -/
def parse_high_tide_data (today : Date) (data : String) : Except PyErr (List DateTime) := do
  let text := pySubNewlines data
  match rowRegexMatch text with
  | none => .error .valueError
  | some m => do
    let this_day ← day2datetime today (.str m.dayno)
    let pairs : List (Option String × Option Char) :=
      [(some m.tide1.time, some m.tide1.hilo),
       (some m.tide2.time, some m.tide2.hilo),
       (some m.tide3.time, some m.tide3.hilo),
       (m.tide4.map TideGroup.time, m.tide4.map TideGroup.hilo)]
    let this_day_high_tides := pairs.foldl
      (fun acc p =>
        if p.2 = some '▲' then
          acc ++ [date_time_combine this_day (timestr2time (p.1.getD ""))]
        else acc) []
    if this_day_high_tides.length < 1 then .error .valueError
    else if this_day_high_tides.length > 2 then .error .valueError
    else pure this_day_high_tides

/-- Modelled from the spec: the Row Parser contract of section 4.3 with the
Date Resolver of section 4.1 — identical to `parse_high_tide_data` except
that the day-of-month group is resolved as the integer it denotes, which is
what the spec's `resolve(queried_day: integer)` receives and what the unit
tests of `day2datetime` pass.  Used to state what the claimed behaviour of
the row parser is, next to what the source actually does. -/
def parse_row_spec (today : Date) (data : String) : Except PyErr (List DateTime) := do
  let text := pySubNewlines data
  match rowRegexMatch text with
  | none => .error .valueError
  | some m => do
    let this_day ← day2datetime today (.int (digitsToNat m.dayno.data))
    let pairs : List (Option String × Option Char) :=
      [(some m.tide1.time, some m.tide1.hilo),
       (some m.tide2.time, some m.tide2.hilo),
       (some m.tide3.time, some m.tide3.hilo),
       (m.tide4.map TideGroup.time, m.tide4.map TideGroup.hilo)]
    let this_day_high_tides := pairs.foldl
      (fun acc p =>
        if p.2 = some '▲' then
          acc ++ [date_time_combine this_day (timestr2time (p.1.getD ""))]
        else acc) []
    if this_day_high_tides.length < 1 then .error .valueError
    else if this_day_high_tides.length > 2 then .error .valueError
    else pure this_day_high_tides

/-- Embedding of `TidesApp.get_weekly_tides` after the weekly table element
has been located: `rows` are the texts of the table's DOM rows.  The method
raises `ValueError` unless there are exactly 7 rows, and otherwise runs
`parse_high_tide_data` on row 0 through row 6 in order, concatenating the
results (an exception from a row's parse propagates immediately, as in
Python). -/
def get_weekly_tides (today : Date) (rows : List String) : Except PyErr (List DateTime) :=
  if rows.length = 7 then
    rows.foldlM (fun acc row => do
      let tides ← parse_high_tide_data today row
      pure (acc ++ tides)) []
  else .error .valueError

/-! ### The search-box retry loop

`TidesApp.get_weekly_tides_via_search_box` drives the tideschart search box
in a `while` loop.  The Selenium collaborator is modelled as an oracle
giving, for each loop iteration (identified by the current timeout count,
which grows by exactly one in every iteration that continues), the outcome
of each of the four waits the iteration performs.  `WebDriverWait.until`
either locates the element or raises selenium's `TimeoutException`; it
never returns `None`, so the source's `if too_many is not None` guard takes
its then-branch whenever it is reached. -/

/-- Outcome of one `WebDriverWait.until` call. -/
inductive WaitOutcome where
  | found
  | timeout
deriving DecidableEq

/-- The collaborator of one run of the search loop: the outcome of each
wait, per iteration. -/
structure SearchOracle where
  searchboxForm : Nat → WaitOutcome
  searchboxClick : Nat → WaitOutcome
  results : Nat → WaitOutcome
  tooMany : Nat → WaitOutcome

/-- The mutable state the loop touches: `self.timeouts`,
`self.too_many_searches_errors`, the number of entries appended to
`self.attempts`, the sleep values appended to `self.sleep_tracker` (and
slept), and how many values have been drawn from the `backoff`
generator. -/
structure LoopState where
  timeouts : Nat
  tooManyErrors : Nat
  attempts : Nat
  sleeps : List Nat
  sleeperIdx : Nat
deriving DecidableEq

/-- How one run of `get_weekly_tides_via_search_box` ends: the found result
is clicked; or the loop exhausts `MAX_TIMEOUTS` and the method raises
`TimeoutError` (the SearchExhausted failure); or an exception escapes the
method from inside the loop. -/
inductive RunResult where
  | clicked (st : LoopState)
  | searchExhausted (st : LoopState)
  | uncaught (e : PyErr) (st : LoopState)
deriving DecidableEq

/-- Embedding of the `while still_searching and self.timeouts < MAX_TIMEOUTS`
loop of `TidesApp.get_weekly_tides_via_search_box`, including the epilogue
(`raise TimeoutError` when still searching, otherwise the click on the
result).  Each iteration: the two `longwait.until` searchbox waits (their
`TimeoutException` is not caught); append to `attempts`; the `quickwait`
wait for the results element; on its timeout, increment `timeouts`, run the
`quickwait` wait for the too-many-searches notice (inside the `except`
block, so its own `TimeoutException` escapes), increment the notice
counter, draw the next backoff value and sleep.  The `finally` block ends
the loop when a result was found. -/
def searchLoop (o : SearchOracle) (st : LoopState) : RunResult :=
  if h : st.timeouts < MAX_TIMEOUTS then
    match o.searchboxForm st.timeouts with
    | .timeout => .uncaught .timeoutException st
    | .found =>
      match o.searchboxClick st.timeouts with
      | .timeout => .uncaught .timeoutException st
      | .found =>
        match o.results st.timeouts with
        | .found =>
          .clicked ⟨st.timeouts, st.tooManyErrors, st.attempts + 1, st.sleeps, st.sleeperIdx⟩
        | .timeout =>
          match o.tooMany st.timeouts with
          | .timeout =>
            .uncaught .timeoutException
              ⟨st.timeouts + 1, st.tooManyErrors, st.attempts + 1, st.sleeps, st.sleeperIdx⟩
          | .found =>
            match backoffNth st.sleeperIdx with
            | none =>
              .uncaught .stopIteration
                ⟨st.timeouts + 1, st.tooManyErrors + 1, st.attempts + 1, st.sleeps, st.sleeperIdx⟩
            | some sleepval =>
              searchLoop o
                ⟨st.timeouts + 1, st.tooManyErrors + 1, st.attempts + 1,
                 st.sleeps ++ [sleepval], st.sleeperIdx + 1⟩
  else .searchExhausted st
termination_by MAX_TIMEOUTS - st.timeouts
decreasing_by
  simp only [MAX_TIMEOUTS] at h ⊢
  omega

/-- The state at the top of the loop: `self.timeouts` and
`self.too_many_searches_errors` are reset to 0 and the backoff generator is
created fresh (`self.attempts` and `self.sleep_tracker` start empty in
`__init__`). -/
def searchInit : LoopState :=
  ⟨0, 0, 0, [], 0⟩

/-- A collaborator whose searchbox waits succeed but whose results-element
wait times out on every attempt, the too-many-searches notice never being
present: every quickwait times out. -/
def oNoNotice : SearchOracle :=
  ⟨fun _ => .found, fun _ => .found, fun _ => .timeout, fun _ => .timeout⟩

/-- A collaborator whose searchbox waits succeed, whose results-element
wait times out on every attempt, and whose too-many-searches notice is
present on every attempt. -/
def oAlwaysTimeoutWithNotice : SearchOracle :=
  ⟨fun _ => .found, fun _ => .found, fun _ => .timeout, fun _ => .found⟩

/-- Erase the diagnostic too-many-searches counter from a run's final
state, for stating that nothing else depends on it. -/
def eraseTooMany : RunResult → RunResult
  | .clicked st => .clicked ⟨st.timeouts, 0, st.attempts, st.sleeps, st.sleeperIdx⟩
  | .searchExhausted st => .searchExhausted ⟨st.timeouts, 0, st.attempts, st.sleeps, st.sleeperIdx⟩
  | .uncaught e st => .uncaught e ⟨st.timeouts, 0, st.attempts, st.sleeps, st.sleeperIdx⟩

/-! ### Configuration loading

`TideschartDotCom.load_URLs` / `load_searches` and
`TidesApp.load_user_locations` validate a parsed JSON configuration.  JSON
values are embedded as `JVal`; the input file is `Option JVal`, `none`
standing for a missing file path (Python `None`). -/

/-- A parsed JSON value. -/
inductive JVal where
  | str (s : String)
  | num (n : Int)
  | bool (b : Bool)
  | null
  | arr (xs : List JVal)
  | obj (kvs : List (String × JVal))

/-- Python `dictionary[key]`: `KeyError` when missing, `TypeError` when the
value is not a dictionary. -/
def pyGetItem (v : JVal) (k : String) : Except PyErr JVal :=
  match v with
  | .obj kvs =>
    match kvs.find? (fun kv => kv.1 = k) with
    | some kv => .ok kv.2
    | none => .error .keyError
  | _ => .error .typeError

/-- Python `key in dictionary.keys()` (an `AttributeError` when the value
has no `keys` method is handled at call sites that use `.keys()`). -/
def pyHasKey (kvs : List (String × JVal)) (k : String) : Bool :=
  (kvs.map Prod.fst).contains k

/-- Python `for x in v`: the elements the loop visits — a list yields its
items, a string its characters, a dictionary its keys; iterating any other
JSON value raises `TypeError`. -/
def pyIter (v : JVal) : Except PyErr (List JVal) :=
  match v with
  | .arr xs => .ok xs
  | .str s => .ok (s.data.map fun c => .str (String.mk [c]))
  | .obj kvs => .ok (kvs.map fun kv => .str kv.1)
  | _ => .error .typeError

/-- Python `v.startswith(p)`: only strings have `startswith`, any other
value raises `AttributeError`. -/
def pyStartswith (v : JVal) (p : String) : Except PyErr Bool :=
  match v with
  | .str s => .ok (s.startsWith p)
  | _ => .error .attributeError

/-- Embedding of `json_utils.check_dict_keys`: `ValueError` unless the
value is a dictionary with exactly `num_keys` keys among which every
expected key occurs. -/
def check_dict_keys (dictionary : JVal) (num_keys : Nat) (expected_keys : List String) :
    Except PyErr Unit :=
  match dictionary with
  | .obj kvs =>
    if kvs.length ≠ num_keys then .error .valueError
    else if expected_keys.all (pyHasKey kvs) then .ok ()
    else .error .valueError
  | _ => .error .valueError

/-- The site prefix every direct URL must carry. -/
def SITE_PREFIX : String := "https://www.tideschart.com/"

/-- The validation loop of `TideschartDotCom.load_URLs`: each row must be a
dictionary with exactly the key `URL`, whose value starts with the site
prefix. -/
def validate_URL_rows (rows : List JVal) : Except PyErr Unit :=
  rows.forM fun row => do
    check_dict_keys row 1 ["URL"]
    let u ← pyGetItem row "URL"
    let ok ← pyStartswith u SITE_PREFIX
    if ok then pure () else .error .valueError

/-- The collection loop of `TideschartDotCom.load_URLs`. -/
def collect_URLs (rows : List JVal) : Except PyErr (List JVal) :=
  rows.foldlM (fun acc row => do
    let u ← pyGetItem row "URL"
    pure (acc ++ [u])) []

/-- Embedding of `TideschartDotCom.load_URLs`: a missing file is a
`ValueError`; the parsed JSON must be a dictionary with exactly the
top-level key `URLs`; each row of its value is validated; the URLs are then
collected.  The method touches no browser collaborator. -/
def load_URLs (input : Option JVal) : Except PyErr (List JVal) := do
  match input with
  | none => .error .valueError
  | some json_data => do
    check_dict_keys json_data 1 ["URLs"]
    let rows ← pyIter (← pyGetItem json_data "URLs")
    validate_URL_rows rows
    collect_URLs rows

/-- The validation loop of `TideschartDotCom.load_searches`: each row must
be a dictionary with exactly the two keys `SEARCH` and `HINT`. -/
def validate_search_rows (rows : List JVal) : Except PyErr Unit :=
  rows.forM fun row => check_dict_keys row 2 ["SEARCH", "HINT"]

/-- The collection loop of `TideschartDotCom.load_searches`. -/
def collect_searches (rows : List JVal) : Except PyErr (List (JVal × JVal)) :=
  rows.foldlM (fun acc row => do
    let s ← pyGetItem row "SEARCH"
    let h ← pyGetItem row "HINT"
    pure (acc ++ [(s, h)])) []

/-- Embedding of `TideschartDotCom.load_searches`: a missing file is a
`ValueError`; the parsed JSON must be a dictionary with exactly the
top-level key `SEARCHES`; each row must carry exactly the keys `SEARCH` and
`HINT`; the pairs are then collected.  The method touches no browser
collaborator. -/
def load_searches (input : Option JVal) : Except PyErr (List (JVal × JVal)) := do
  match input with
  | none => .error .valueError
  | some json_data => do
    check_dict_keys json_data 1 ["SEARCHES"]
    let rows ← pyIter (← pyGetItem json_data "SEARCHES")
    validate_search_rows rows
    collect_searches rows

/-! ### Loading locations in `tidesapp_viaSelenium` -/

/-- Embedding of the `Modes` enum. -/
inductive Modes where
  | UNKNOWN
  | URLs
  | MUNIs
deriving DecidableEq

/-- Embedding of `TidesApp.DEFAULT_URLS`. -/
def DEFAULT_URLS : List JVal :=
  [.obj [("URL", .str "https://www.tideschart.com/United-States/Massachusetts/Essex-County/Salisbury/")],
   .obj [("URL", .str "https://www.tideschart.com/United-States/Massachusetts/Essex-County/Newburyport/")],
   .obj [("URL", .str "https://www.tideschart.com/United-States/Massachusetts/Essex-County/Rowley/")],
   .obj [("URL", .str "https://www.tideschart.com/United-States/Massachusetts/Essex-County/Crane-Beach/")],
   .obj [("URL", .str "https://www.tideschart.com/United-States/Massachusetts/Essex-County/Wingaersheek-Beach/")],
   .obj [("URL", .str "https://www.tideschart.com/United-States/Massachusetts/Essex-County/Rockport/")]]

/-- The fields of a `TidesApp` instance that `load_user_locations` and the
`mainapp` dispatch read and write. -/
structure AppState where
  mode : Modes
  locations : JVal

/-- A fresh `TidesApp`: `__init__` sets the mode to `UNKNOWN` and the
location list to empty. -/
def initApp : AppState :=
  ⟨.UNKNOWN, .arr []⟩

/-- The per-entry validation of `TidesApp.load_user_locations` (the
`if self.mode is Modes.URLs: ... elif self.mode is Modes.MUNIs: ...` part):
in `URLs` mode every location needs a `URL` key (`KeyError` otherwise)
whose value is a string (`ValueError`) starting with the site prefix
(`ValueError`); in `MUNIs` mode every location needs `MUNI` and `HINT` keys
with string values; in `UNKNOWN` mode neither branch runs.  Calling
`.keys()` on a non-dictionary raises `AttributeError`. -/
def validateLocations (mode : Modes) (locations : JVal) : Except PyErr Unit :=
  match mode with
  | .URLs => do
    let locs ← pyIter locations
    locs.forM fun location => do
      match location with
      | .obj kvs =>
        if pyHasKey kvs "URL" then do
          let u ← pyGetItem location "URL"
          match u with
          | .str s => if s.startsWith SITE_PREFIX then pure () else .error .valueError
          | _ => .error .valueError
        else .error .keyError
      | _ => .error .attributeError
  | .MUNIs => do
    let locs ← pyIter locations
    locs.forM fun location => do
      match location with
      | .obj kvs =>
        if pyHasKey kvs "MUNI" && pyHasKey kvs "HINT" then do
          let m ← pyGetItem location "MUNI"
          let h ← pyGetItem location "HINT"
          match m, h with
          | .str _, .str _ => pure ()
          | _, _ => .error .valueError
        else .error .keyError
      | _ => .error .attributeError
  | .UNKNOWN => pure ()

/-- Embedding of `TidesApp.load_user_locations`: with no input file the
default URL list is loaded and the mode is left untouched; with a file, the
top-level key selects the mode (`URLs` or `MUNIs`, anything else a
`ValueError`; `.keys()` on a non-dictionary an `AttributeError`); then the
per-entry validation for the current mode runs. -/
def load_user_locations (st : AppState) (file : Option JVal) : Except PyErr AppState := do
  let st1 ←
    match file with
    | none => pure { st with locations := .arr DEFAULT_URLS }
    | some data =>
      match data with
      | .obj kvs =>
        if pyHasKey kvs "URLs" then do
          let locs ← pyGetItem data "URLs"
          pure (⟨.URLs, locs⟩ : AppState)
        else if pyHasKey kvs "MUNIs" then do
          let locs ← pyGetItem data "MUNIs"
          pure (⟨.MUNIs, locs⟩ : AppState)
        else .error .valueError
      | _ => .error .attributeError
  validateLocations st1.mode st1.locations
  pure st1

/-- Embedding of the retrieval dispatch of `TidesApp.mainapp` after
`load_user_locations` has run: in `URLs` mode the weekly-tides mapping is
keyed by each location's `URL` string and filled by the direct-URL
retriever, in `MUNIs` mode keyed by `MUNI` and filled by the search-box
retriever; in any other mode neither loop runs and the mapping stays
empty.  The two retrievers drive the browser and are passed as
collaborators. -/
def mainapp_weekly_tides (mode : Modes) (locations : JVal)
    (retrieveURL : JVal → List DateTime) (retrieveMUNI : JVal → List DateTime) :
    Except PyErr (List (JVal × List DateTime)) :=
  match mode with
  | .URLs => do
    let locs ← pyIter locations
    locs.foldlM (fun acc u => do
      let url ← pyGetItem u "URL"
      pure (acc ++ [(url, retrieveURL url)])) []
  | .MUNIs => do
    let locs ← pyIter locations
    locs.foldlM (fun acc x => do
      let muni ← pyGetItem x "MUNI"
      pure (acc ++ [(muni, retrieveMUNI x)])) []
  | .UNKNOWN => pure []

/-- Whether a URL-mode row passes the key check of `load_URLs`
(a dictionary with exactly the key `URL`). -/
def rowKeysOkURL (row : JVal) : Bool :=
  match check_dict_keys row 1 ["URL"] with
  | .ok _ => true
  | .error _ => false

/-- Whether a search-mode row passes the key check of `load_searches`
(a dictionary with exactly the keys `SEARCH` and `HINT`). -/
def rowKeysOkSearch (row : JVal) : Bool :=
  match check_dict_keys row 2 ["SEARCH", "HINT"] with
  | .ok _ => true
  | .error _ => false

/-- Whether a row's `URL` entry, when the row is a dictionary carrying that
key, holds a string (so that `startswith` does not raise
`AttributeError`). -/
def urlValueIsStr (row : JVal) : Bool :=
  match row with
  | .obj kvs =>
    match kvs.find? (fun kv => kv.1 = "URL") with
    | some kv =>
      match kv.2 with
      | .str _ => true
      | _ => false
    | none => true
  | _ => true

/-- A configuration whose first row carries the right key `URL` but a
non-string value, and whose second row has a wrong key. -/
def badURLConfig : JVal :=
  .obj [("URLs", .arr [.obj [("URL", .arr [])], .obj [("X", .str "y")]])]

/-- The sample row of the source's docstrings and of the unit tests
(`tests_tideschart_com.py` runs it under `freeze_time(datetime(2022, 9,
21))` and expects the 9:09am and 9:17pm high tides), with four tide groups
of which two carry the up glyph. -/
def sampleRow4 : String :=
  "Mon 22 3:36am ▼ 0.98 ft 9:09am ▲ 6.56 ft 3:41pm ▼ 1.64 ft 9:17pm ▲ 7.55 ft ▲ 5:57am ▼ 7:35pm"

/-- The same sample row with the fourth tide group omitted (three groups,
one of them high), the second docstring example. -/
def sampleRow3 : String :=
  "Mon 22 3:36am ▼ 0.98 ft 9:09am ▲ 6.56 ft 3:41pm ▼ 1.64 ft ▲ 5:57am ▼ 7:35pm"

/-- Whether an embedded call returned normally (no exception raised). -/
def returnsNormally (r : Except PyErr (List DateTime)) : Bool :=
  match r with
  | .ok _ => true
  | .error _ => false

/-! ## Theorems -/

/-- Flattening `k` copies of the eight-element backoff table and indexing at
`n < 8 * k` lands on entry `n % 8` of the table. -/
theorem backoff_flatten_get (k : Nat) :
    ∀ n : Nat, n < 8 * k →
      ((List.replicate k ([2, 4, 8, 12, 20, 32, 48, 64] : List Nat)).flatten).get? n
        = ([2, 4, 8, 12, 20, 32, 48, 64] : List Nat).get? (n % 8) := by
  induction k with
  | zero => intro n h; omega
  | succ k ih =>
    intro n h
    rw [List.replicate_succ, List.flatten_cons]
    by_cases hn : n < 8
    · rw [List.get?_append (by simpa using hn), Nat.mod_eq_of_lt hn]
    · have h8 : 8 ≤ n := by omega
      rw [List.get?_append_right (by simpa using h8)]
      have := ih (n - 8) (by omega)
      simp only [List.length_cons, List.length_nil] at this ⊢
      rw [this]
      conv_rhs => rw [Nat.mod_eq_sub_mod h8]

/-- The backoff generator yields exactly 80000 values. -/
theorem backoff_length : backoff.length = 80000 := by
  rw [backoff, List.length_flatten, List.map_replicate, List.sum_replicate]
  norm_num

/-- C8, counterexample.  The claim says the backoff schedule is infinite —
the n-th delay defined for every attempt index n — but the generator of
`tidesapp_viaSelenium.py` yields the eight-value table only 10000 times:
the 80000-th `next()` call finds it exhausted (`StopIteration`), so the
80000-th delay is not defined. -/
theorem backoff_generator_exhausts : backoffNth 80000 = none := by
  rw [backoffNth, List.get?_eq_none]
  simp [backoff_length]

/-- C8, amended.  For every attempt index below 80000 the n-th delay drawn
from the backoff generator is defined and equals the (n mod 8)-th entry of
the table [2, 4, 8, 12, 20, 32, 48, 64]; from index 80000 on the generator
is exhausted. -/
theorem backoff_cycles_below_80000 (n : Nat) (h : n < 80000) :
    backoffNth n = ([2, 4, 8, 12, 20, 32, 48, 64] : List Nat).get? (n % 8) := by
  rw [backoffNth, backoff]
  exact backoff_flatten_get 10000 n (by omega)

/-- C8, witness: the 9-th delay is the (9 mod 8)-th table entry. -/
theorem backoff_cycles_below_80000_witness :
    backoffNth 9 = ([2, 4, 8, 12, 20, 32, 48, 64] : List Nat).get? (9 % 8) :=
  backoff_cycles_below_80000 9 (by decide)

/-- C3, counterexample.  The claim quantifies over every queried_day in
[today.day, 31]; with today = 2022-02-10 the queried day 30 lies in that
range, but the resolver does not return a date of the current month — the
`datetime` constructor raises `ValueError`, February 2022 having 28
days. -/
theorem day2datetime_current_month_invalid_day :
    day2datetime ⟨2022, 2, 10⟩ (.int 30) = .error .valueError ∧
      10 ≤ 30 ∧ 30 ≤ 31 := by
  constructor
  · rfl
  · omega

/-- When the queried day is an int not below today's day, the resolver
keeps today's month (no bump) and, the month being at most 12, no year
wrap happens either. -/
theorem day2datetime_int_ge (today : Date) (q : Nat)
    (h : today.day ≤ q) (hm : today.month ≤ 12) :
    day2datetime today (.int q) = pyDatetime today.year today.month (.int q) := by
  have hlt : ¬ ((q : Int) < (today.day : Int)) := by exact_mod_cast not_lt.mpr h
  simp only [day2datetime, pyLt, Bind.bind, Except.bind, decide_eq_false hlt,
    Bool.false_eq_true, if_false]
  rw [if_neg (by omega)]

/-- When the queried day is an int below today's day and today's month is
not December, the resolver bumps the month and keeps the year. -/
theorem day2datetime_int_lt (today : Date) (q : Nat)
    (h : q < today.day) (hm : today.month < 12) :
    day2datetime today (.int q) = pyDatetime today.year (today.month + 1) (.int q) := by
  have hlt : (q : Int) < (today.day : Int) := by exact_mod_cast h
  simp only [day2datetime, pyLt, Bind.bind, Except.bind, decide_eq_true hlt, if_true]
  rw [if_neg (by omega)]

/-- When the queried day is an int below today's day and today's month is
December, the bumped month wraps to January of the next year. -/
theorem day2datetime_int_lt_december (today : Date) (q : Nat)
    (h : q < today.day) (hm : today.month = 12) :
    day2datetime today (.int q) = pyDatetime (today.year + 1) 1 (.int q) := by
  have hlt : (q : Int) < (today.day : Int) := by exact_mod_cast h
  simp only [day2datetime, pyLt, Bind.bind, Except.bind, decide_eq_true hlt, if_true]
  rw [if_pos (by omega)]

/-- The embedded `datetime` constructor accepts any valid date with an int
day. -/
theorem pyDatetime_int_ok (y m q : Nat)
    (h1 : 1 ≤ y) (h2 : y ≤ 9999) (h3 : 1 ≤ m) (h4 : m ≤ 12)
    (h5 : 1 ≤ q) (h6 : q ≤ daysInMonth y m) :
    pyDatetime y m (.int q) = .ok ⟨y, m, q, 0, 0⟩ := by
  simp only [pyDatetime]
  rw [if_pos ⟨by omega, by omega, by omega, by omega, by exact_mod_cast h5,
    by exact_mod_cast h6⟩]
  simp

/-- C3, amended.  For every queried_day in [today.day, 31] that is a valid
day of today's month, the resolver returns a date with today's month and
year (no rollover) and day queried_day; a queried_day beyond the month's
length raises `ValueError` instead of returning a date. -/
theorem day2datetime_no_rollover (today : Date) (q : Nat)
    (hm1 : 1 ≤ today.month) (hm2 : today.month ≤ 12)
    (hy1 : 1 ≤ today.year) (hy2 : today.year ≤ 9999)
    (hd1 : 1 ≤ today.day)
    (hq1 : today.day ≤ q) (hq2 : q ≤ 31)
    (hq3 : q ≤ daysInMonth today.year today.month) :
    day2datetime today (.int q) = .ok ⟨today.year, today.month, q, 0, 0⟩ := by
  rw [day2datetime_int_ge today q hq1 hm2]
  exact pyDatetime_int_ok _ _ _ hy1 hy2 hm1 hm2 (hd1.trans hq1) hq3

/-- C3, witness: today 2022-09-21, queried day 22 resolves to
2022-09-22. -/
theorem day2datetime_no_rollover_witness :
    day2datetime ⟨2022, 9, 21⟩ (.int 22) = .ok ⟨2022, 9, 22, 0, 0⟩ :=
  day2datetime_no_rollover ⟨2022, 9, 21⟩ 22 (by decide) (by decide) (by decide)
    (by decide) (by decide) (by decide) (by decide) (by decide)

/-- C4, counterexample.  The claim quantifies over every queried_day in
[1, today.day - 1]; with today = 2022-01-31 the queried day 30 lies in that
range, but the resolver does not return a date of the following month — the
`datetime` constructor raises `ValueError`, February 2022 having 28
days. -/
theorem day2datetime_next_month_invalid_day :
    day2datetime ⟨2022, 1, 31⟩ (.int 30) = .error .valueError ∧
      1 ≤ 30 ∧ 30 ≤ 31 - 1 := by
  constructor
  · rfl
  · omega

/-- C4, amended.  For every queried_day in [1, today.day - 1] that is a
valid day of the month after today's, the resolver returns a date in that
following month, with the year incremented exactly when the following month
is January (today's month being December), and day queried_day; a
queried_day beyond that month's length raises `ValueError` instead of
returning a date. -/
theorem day2datetime_rollover (today : Date) (q : Nat)
    (hm1 : 1 ≤ today.month) (hm2 : today.month ≤ 12)
    (hy1 : 1 ≤ today.year)
    (hy2 : (if today.month = 12 then today.year + 1 else today.year) ≤ 9999)
    (hq1 : 1 ≤ q) (hq2 : q < today.day)
    (hq3 : q ≤ daysInMonth (if today.month = 12 then today.year + 1 else today.year)
      (if today.month = 12 then 1 else today.month + 1)) :
    day2datetime today (.int q)
      = .ok ⟨if today.month = 12 then today.year + 1 else today.year,
             if today.month = 12 then 1 else today.month + 1, q, 0, 0⟩ := by
  by_cases h12 : today.month = 12
  · rw [if_pos h12] at hy2
    rw [if_pos h12, if_pos h12] at hq3
    rw [if_pos h12, if_pos h12]
    rw [day2datetime_int_lt_december today q hq2 h12]
    exact pyDatetime_int_ok _ _ _ (by omega) hy2 (by omega) (by omega) hq1 hq3
  · rw [if_neg h12] at hy2
    rw [if_neg h12, if_neg h12] at hq3
    rw [if_neg h12, if_neg h12]
    rw [day2datetime_int_lt today q hq2 (by omega)]
    exact pyDatetime_int_ok _ _ _ hy1 hy2 (by omega) (by omega) hq1 hq3

/-- C4, witness: today 2022-12-28, queried day 3 resolves to 2023-01-03
(year incremented, the following month being January). -/
theorem day2datetime_rollover_witness :
    day2datetime ⟨2022, 12, 28⟩ (.int 3)
      = .ok ⟨if (⟨2022, 12, 28⟩ : Date).month = 12 then 2022 + 1 else 2022,
             if (⟨2022, 12, 28⟩ : Date).month = 12 then 1 else (⟨2022, 12, 28⟩ : Date).month + 1,
             3, 0, 0⟩ :=
  day2datetime_rollover ⟨2022, 12, 28⟩ 3 (by decide) (by decide) (by decide)
    (by decide) (by decide) (by decide) (by decide)

/-- Passing a string day (as `parse_high_tide_data` passes the regex group)
to the resolver raises `TypeError` at the comparison with today's int
day. -/
theorem day2datetime_str (today : Date) (s : String) :
    day2datetime today (.str s) = .error .typeError :=
  rfl

/-- What `parse_high_tide_data` does on every input: `ValueError` when the
row pattern does not match, `TypeError` otherwise — the day-number group, a
string, reaches the int comparison inside `day2datetime`. -/
theorem parse_high_tide_data_classified (today : Date) (data : String) :
    parse_high_tide_data today data =
      (match rowRegexMatch (pySubNewlines data) with
       | none => .error .valueError
       | some _ => .error .typeError) := by
  unfold parse_high_tide_data
  cases h : rowRegexMatch (pySubNewlines data) with
  | none => simp [h]
  | some m => simp [h, day2datetime_str, Bind.bind, Except.bind]

/-- C2.  On the sample row with today frozen at 2022-09-21, the row pattern
matches and captures the day-number group "22", but `parse_high_tide_data`
raises `TypeError` rather than returning the two timestamps: it hands the
group — a string — to `day2datetime`, which compares it against an int
(`timestr2time` and `date_time_combine` are moreover absent from
`datetime_utils.py`).  The spec-modelled row parser, which resolves the day
number as the integer it denotes, returns exactly the claimed list
[2022-09-22T09:09, 2022-09-22T21:17]. -/
theorem parse_sample_row_crashes_with_type_error :
    (rowRegexMatch (pySubNewlines sampleRow4)).map RowGroups.dayno = some "22" ∧
    day2datetime ⟨2022, 9, 21⟩ (.str "22") = .error .typeError ∧
    parse_high_tide_data ⟨2022, 9, 21⟩ sampleRow4 = .error .typeError ∧
    parse_row_spec ⟨2022, 9, 21⟩ sampleRow4
      = .ok [⟨2022, 9, 22, 9, 9⟩, ⟨2022, 9, 22, 21, 17⟩] := by
  exact ⟨rfl, rfl, rfl, rfl⟩

/-- C5.  The row parser never returns normally on any input: its
`ValueError` characterises exactly the rows the pattern rejects, while
every row the pattern accepts — whatever its number of high-tide groups —
dies with `TypeError` before the high-tide cardinality checks are reached.
The sample rows with two high groups and with one high group, which the
claim says return normally, both raise `TypeError`. -/
theorem parse_never_returns_normally :
    (∀ (today : Date) (data : String),
        returnsNormally (parse_high_tide_data today data) = false) ∧
    (∀ (today : Date) (data : String),
        parse_high_tide_data today data = .error .valueError ↔
          rowRegexMatch (pySubNewlines data) = none) ∧
    parse_high_tide_data ⟨2022, 9, 21⟩ sampleRow3 = .error .typeError ∧
    parse_high_tide_data ⟨2022, 9, 21⟩ sampleRow4 = .error .typeError := by
  refine ⟨?_, ?_, rfl, rfl⟩
  · intro today data
    rw [parse_high_tide_data_classified]
    cases rowRegexMatch (pySubNewlines data) <;> rfl
  · intro today data
    rw [parse_high_tide_data_classified]
    cases rowRegexMatch (pySubNewlines data) <;> simp

/-- The shape guard of `get_weekly_tides`: any row count other than 7 is
rejected with `ValueError` before any row is parsed. -/
theorem get_weekly_tides_shape_guard (today : Date) (rows : List String)
    (h : rows.length ≠ 7) :
    get_weekly_tides today rows = .error .valueError := by
  rw [get_weekly_tides, if_neg h]

/-- C6.  The direct-URL retriever does fail with `ValueError` whenever the
table has other than 7 rows (here 6 and 8 copies of the valid sample row),
but on a well-shaped table of 7 valid rows it does not invoke the row
parser once per row: the parse of row 0 raises `TypeError` (the day-number
string reaching an int comparison), so rows 1 through 6 are never parsed
and no concatenated result is produced. -/
theorem get_weekly_tides_shape_and_row0_crash :
    get_weekly_tides ⟨2022, 9, 21⟩ (List.replicate 7 sampleRow4) = .error .typeError ∧
    get_weekly_tides ⟨2022, 9, 21⟩ (List.replicate 6 sampleRow4) = .error .valueError ∧
    get_weekly_tides ⟨2022, 9, 21⟩ (List.replicate 8 sampleRow4) = .error .valueError := by
  exact ⟨rfl, rfl, rfl⟩

/-- C1, counterexample.  A run in which the results-element wait times out
on every attempt, but in which the loop does not perform 10 attempts and
does not raise `TimeoutError`: with the too-many-searches notice absent,
the `quickwait` for the notice — executed inside the `except` block —
itself times out on the first attempt, and its `TimeoutException` escapes
the loop after a single attempt and a single timeout increment. -/
theorem search_loop_escapes_via_timeout_exception :
    searchLoop oNoNotice searchInit = .uncaught .timeoutException ⟨1, 0, 1, [], 0⟩ := by
  simp [searchLoop, searchInit, oNoNotice, MAX_TIMEOUTS]

/-- Under a collaborator whose searchbox waits succeed, whose results wait
always times out and whose too-many notice is always found, the loop runs
from the diagonal state after k timed-out iterations to the exhausted
final state. -/
theorem searchLoop_diagonal (o : SearchOracle)
    (hf : ∀ n, o.searchboxForm n = .found) (hc : ∀ n, o.searchboxClick n = .found)
    (hr : ∀ n, o.results n = .timeout) (ht : ∀ n, o.tooMany n = .found) :
    ∀ (j k : Nat), k + j = MAX_TIMEOUTS →
      searchLoop o ⟨k, k, k, backoff.take k, k⟩
        = .searchExhausted
            ⟨MAX_TIMEOUTS, MAX_TIMEOUTS, MAX_TIMEOUTS, backoff.take MAX_TIMEOUTS, MAX_TIMEOUTS⟩ := by
  intro j
  induction j with
  | zero =>
    intro k hk
    have hk10 : k = MAX_TIMEOUTS := by omega
    subst hk10
    rw [searchLoop, dif_neg (by show ¬ (MAX_TIMEOUTS < MAX_TIMEOUTS); omega)]
  | succ j ih =>
    intro k hk
    have hklt : k < MAX_TIMEOUTS := by omega
    rw [searchLoop, dif_pos hklt]
    simp only [hf, hc, hr, ht]
    have hkb : k < backoff.length := by
      rw [backoff_length]
      simp only [MAX_TIMEOUTS] at hklt
      omega
    have hbv : backoffNth k = some (backoff.get ⟨k, hkb⟩) := by
      rw [backoffNth, List.get?_eq_get hkb]
    rw [hbv]
    have hsl : backoff.take k ++ [backoff.get ⟨k, hkb⟩] = backoff.take (k + 1) := by
      rw [List.take_succ, List.getElem?_eq_getElem hkb]
      rfl
    show searchLoop o ⟨k + 1, k + 1, k + 1, backoff.take k ++ [backoff.get ⟨k, hkb⟩], k + 1⟩ = _
    rw [hsl]
    exact ih (k + 1) (by omega)

/-- C1, amended.  For every run in which the searchbox waits succeed, the
results-element wait times out on every attempt and the too-many-searches
notice wait finds the notice on every attempt, the retry loop performs
exactly MAX_TIMEOUTS = 10 attempts, incrementing the timeout counter once
per attempt, then stops and raises `TimeoutError` (the SearchExhausted
failure), never looping indefinitely; when the notice wait itself times
out, its `TimeoutException` instead escapes the loop early (see the
counterexample). -/
theorem search_loop_exhausts_after_max_timeouts (o : SearchOracle)
    (hf : ∀ n, o.searchboxForm n = .found) (hc : ∀ n, o.searchboxClick n = .found)
    (hr : ∀ n, o.results n = .timeout) (ht : ∀ n, o.tooMany n = .found) :
    searchLoop o searchInit
      = .searchExhausted ⟨10, 10, 10, [2, 4, 8, 12, 20, 32, 48, 64, 2, 4], 10⟩ := by
  have h := searchLoop_diagonal o hf hc hr ht MAX_TIMEOUTS 0 (by omega)
  rw [show (searchInit : LoopState) = ⟨0, 0, 0, backoff.take 0, 0⟩ from rfl]
  rw [h]
  rfl

/-- C1, witness: the loop under the concrete always-timeout collaborator
with the notice present exhausts after exactly 10 attempts with the first
ten backoff sleeps. -/
theorem search_loop_exhausts_after_max_timeouts_witness :
    searchLoop oAlwaysTimeoutWithNotice searchInit
      = .searchExhausted ⟨10, 10, 10, [2, 4, 8, 12, 20, 32, 48, 64, 2, 4], 10⟩ :=
  search_loop_exhausts_after_max_timeouts oAlwaysTimeoutWithNotice
    (fun _ => rfl) (fun _ => rfl) (fun _ => rfl) (fun _ => rfl)

/-- C9.  The too-many-searches counter never affects control flow: for
every collaborator and every loop state, replacing the counter's value by
any other changes nothing in the run's outcome — not whether or when the
loop stops, not the exception raised, not the attempts, timeout count or
sleeps — except the final value of the counter itself. -/
theorem search_loop_ignores_too_many_counter (o : SearchOracle) (st : LoopState) (c : Nat) :
    eraseTooMany (searchLoop o ⟨st.timeouts, c, st.attempts, st.sleeps, st.sleeperIdx⟩)
      = eraseTooMany (searchLoop o st) := by
  suffices h : ∀ (j : Nat) (o : SearchOracle) (st : LoopState) (c : Nat),
      MAX_TIMEOUTS - st.timeouts ≤ j →
      eraseTooMany (searchLoop o ⟨st.timeouts, c, st.attempts, st.sleeps, st.sleeperIdx⟩)
        = eraseTooMany (searchLoop o st) by
    exact h MAX_TIMEOUTS o st c (by omega)
  intro j
  induction j with
  | zero =>
    intro o st c hj
    rw [searchLoop, searchLoop, dif_neg (by show ¬ (st.timeouts < MAX_TIMEOUTS); omega),
      dif_neg (by omega)]
    rfl
  | succ j ih =>
    intro o st c hj
    by_cases h : st.timeouts < MAX_TIMEOUTS
    · rw [searchLoop, searchLoop, dif_pos h, dif_pos h]
      cases o.searchboxForm st.timeouts with
      | timeout => rfl
      | found =>
        cases o.searchboxClick st.timeouts with
        | timeout => rfl
        | found =>
          cases o.results st.timeouts with
          | found => rfl
          | timeout =>
            cases o.tooMany st.timeouts with
            | timeout => rfl
            | found =>
              cases backoffNth st.sleeperIdx with
              | none => rfl
              | some v =>
                exact ih o ⟨st.timeouts + 1, st.tooManyErrors + 1, st.attempts + 1,
                  st.sleeps ++ [v], st.sleeperIdx + 1⟩ (c + 1) (by simp; omega)
    · rw [searchLoop, searchLoop, dif_neg h, dif_neg h]
      rfl

/-- `check_dict_keys` either returns normally or raises `ValueError`. -/
theorem check_dict_keys_cases (d : JVal) (n : Nat) (ks : List String) :
    check_dict_keys d n ks = .ok () ∨ check_dict_keys d n ks = .error .valueError := by
  cases d with
  | obj kvs =>
    rw [check_dict_keys]
    split
    · exact Or.inr rfl
    · split
      · exact Or.inl rfl
      · exact Or.inr rfl
  | str s => exact Or.inr rfl
  | num m => exact Or.inr rfl
  | bool b => exact Or.inr rfl
  | null => exact Or.inr rfl
  | arr xs => exact Or.inr rfl

/-- A value passing `check_dict_keys` is a dictionary of the requested
width containing every expected key. -/
theorem check_dict_keys_ok (d : JVal) (n : Nat) (ks : List String)
    (h : check_dict_keys d n ks = .ok ()) :
    ∃ kvs, d = .obj kvs ∧ kvs.length = n ∧ ∀ k ∈ ks, pyHasKey kvs k = true := by
  cases d with
  | obj kvs =>
    refine ⟨kvs, rfl, ?_⟩
    rw [check_dict_keys] at h
    by_cases h1 : kvs.length ≠ n
    · rw [if_pos h1] at h
      exact absurd h (by simp)
    · rw [if_neg h1] at h
      by_cases h2 : ks.all (pyHasKey kvs) = true
      · refine ⟨by omega, ?_⟩
        intro k hk
        exact List.all_eq_true.mp h2 k hk
      · rw [if_neg h2] at h
        exact absurd h (by simp)
  | str s => exact absurd h (by simp [check_dict_keys])
  | num m => exact absurd h (by simp [check_dict_keys])
  | bool b => exact absurd h (by simp [check_dict_keys])
  | null => exact absurd h (by simp [check_dict_keys])
  | arr xs => exact absurd h (by simp [check_dict_keys])

/-- C7, counterexample.  A configuration with the documented top-level key
whose second row does not have exactly the key `URL` — the claim then
promises a `ValueError` or `KeyError` — but on which `load_URLs` raises
`AttributeError` instead: the first row's well-keyed `URL` value is not a
string, and `startswith` on it fails before the second row's keys are ever
checked. -/
theorem load_URLs_attribute_error_on_nonstring_url :
    load_URLs (some badURLConfig) = .error .attributeError ∧
    check_dict_keys (.obj [("X", .str "y")]) 1 ["URL"] = .error .valueError := by
  exact ⟨rfl, rfl⟩

/-- The URL loader rejects with `ValueError` any top level that is not a
dictionary with exactly the single key `URLs`. -/
theorem load_URLs_top_shape (j : JVal) (h : ∀ v, j ≠ .obj [("URLs", v)]) :
    load_URLs (some j) = .error .valueError := by
  match j with
  | .str s => rfl
  | .num n => rfl
  | .bool b => rfl
  | .null => rfl
  | .arr xs => rfl
  | .obj [] => rfl
  | .obj [(k, v)] =>
    by_cases hk : k = "URLs"
    · exact absurd (by rw [hk]) (h v)
    · simp [load_URLs, check_dict_keys, pyHasKey, Bind.bind, Except.bind,
        if_neg (show ¬ ("URLs" = k) from fun he => hk he.symm)]
  | .obj ((k1, v1) :: (k2, v2) :: rest) =>
    simp [load_URLs, check_dict_keys, Bind.bind, Except.bind]

/-- The search loader rejects with `ValueError` any top level that is not a
dictionary with exactly the single key `SEARCHES`. -/
theorem load_searches_top_shape (j : JVal) (h : ∀ v, j ≠ .obj [("SEARCHES", v)]) :
    load_searches (some j) = .error .valueError := by
  match j with
  | .str s => rfl
  | .num n => rfl
  | .bool b => rfl
  | .null => rfl
  | .arr xs => rfl
  | .obj [] => rfl
  | .obj [(k, v)] =>
    by_cases hk : k = "SEARCHES"
    · exact absurd (by rw [hk]) (h v)
    · simp [load_searches, check_dict_keys, pyHasKey, Bind.bind, Except.bind,
        if_neg (show ¬ ("SEARCHES" = k) from fun he => hk he.symm)]
  | .obj ((k1, v1) :: (k2, v2) :: rest) =>
    simp [load_searches, check_dict_keys, Bind.bind, Except.bind]

/-- The URL-row validation loop fails with `ValueError` when some row lacks
exactly the key `URL`, provided every well-keyed row's URL value is a
string (a non-string value fails earlier with `AttributeError`, see the
counterexample). -/
theorem validate_URL_rows_bad_row (rows : List JVal)
    (hstr : ∀ row ∈ rows, urlValueIsStr row = true)
    (hbad : rows.any (fun r => !rowKeysOkURL r) = true) :
    validate_URL_rows rows = .error .valueError := by
  induction rows with
  | nil => simp at hbad
  | cons row rest ih =>
    rw [validate_URL_rows]
    simp only [List.forM]
    rcases check_dict_keys_cases row 1 ["URL"] with hck | hck
    · -- the head row passes the key check
      obtain ⟨kvs, hrow, hlen, hkeys⟩ := check_dict_keys_ok row 1 ["URL"] hck
      have hmem : pyHasKey kvs "URL" = true := hkeys "URL" (by simp)
      have hfind : ∃ kv, kvs.find? (fun kv => kv.1 = "URL") = some kv := by
        rw [pyHasKey] at hmem
        have : ∃ k ∈ kvs.map Prod.fst, k = "URL" := by
          simpa using List.contains_iff_exists_mem_beq.mp hmem
        obtain ⟨k, hkmem, hkeq⟩ := this
        obtain ⟨kv, hkv, hfst⟩ := List.mem_map.mp hkmem
        have : (kvs.find? (fun kv => kv.1 = "URL")).isSome := by
          rw [List.find?_isSome]
          exact ⟨kv, hkv, by simp [hfst, hkeq]⟩
        exact Option.isSome_iff_exists.mp this
      obtain ⟨kv, hkv⟩ := hfind
      have hstr0 := hstr row (by simp)
      rw [hrow, urlValueIsStr, hkv] at hstr0
      obtain ⟨s, hs⟩ : ∃ s, kv.2 = .str s := by
        rcases kv with ⟨k1, v1⟩
        cases v1 <;> simp_all
      have hget : pyGetItem row "URL" = .ok (.str s) := by
        rw [hrow, pyGetItem, hkv]
        simp [hs]
      have hko : rowKeysOkURL row = true := by
        rw [rowKeysOkURL, hck]
      have hbadrest : rest.any (fun r => !rowKeysOkURL r) = true := by
        rw [List.any_cons, hko] at hbad
        simpa using hbad
      have hrest := ih (fun r hr => hstr r (by simp [hr])) hbadrest
      rw [validate_URL_rows] at hrest
      cases hsw : (s.startsWith SITE_PREFIX) with
      | true =>
        simp only [hck, hget, pyStartswith, hsw, Bind.bind, Except.bind, if_true,
          Pure.pure, Except.pure]
        exact hrest
      | false =>
        simp only [hck, hget, pyStartswith, hsw, Bind.bind, Except.bind, if_false,
          Bool.false_eq_true, Pure.pure, Except.pure]
    · -- the head row already fails the key check
      simp [hck, Bind.bind, Except.bind]

/-- The search-row validation loop fails with `ValueError` when some row
lacks exactly the keys `SEARCH` and `HINT`. -/
theorem validate_search_rows_bad_row (rows : List JVal)
    (hbad : rows.any (fun r => !rowKeysOkSearch r) = true) :
    validate_search_rows rows = .error .valueError := by
  induction rows with
  | nil => simp at hbad
  | cons row rest ih =>
    rw [validate_search_rows]
    simp only [List.forM]
    rcases check_dict_keys_cases row 2 ["SEARCH", "HINT"] with hck | hck
    · have hko : rowKeysOkSearch row = true := by
        rw [rowKeysOkSearch, hck]
      have hbadrest : rest.any (fun r => !rowKeysOkSearch r) = true := by
        rw [List.any_cons, hko] at hbad
        simpa using hbad
      have hrest := ih hbadrest
      rw [validate_search_rows] at hrest
      simp [hck, Bind.bind, Except.bind, hrest]
    · simp [hck, Bind.bind, Except.bind]

/-- C7, amended.  As the claim states — a wrong top-level key, a top level
wider than one key, or a row without exactly the selected mode's keys is
rejected with `ValueError` before any browser interaction (neither loader
touches the browser) — except that, in URL mode, when a well-keyed row
before the first badly-keyed one carries a non-string `URL` value, the
failure surfaces as `AttributeError` from `startswith` instead (see the
counterexample); with string URL values the claimed `ValueError` holds. -/
theorem config_validation_rejects_bad_keys :
    (∀ j : JVal, (∀ v, j ≠ .obj [("URLs", v)]) → load_URLs (some j) = .error .valueError) ∧
    (∀ j : JVal, (∀ v, j ≠ .obj [("SEARCHES", v)]) →
        load_searches (some j) = .error .valueError) ∧
    (∀ rows : List JVal, (∀ row ∈ rows, urlValueIsStr row = true) →
        rows.any (fun r => !rowKeysOkURL r) = true →
        load_URLs (some (.obj [("URLs", .arr rows)])) = .error .valueError) ∧
    (∀ rows : List JVal, rows.any (fun r => !rowKeysOkSearch r) = true →
        load_searches (some (.obj [("SEARCHES", .arr rows)])) = .error .valueError) := by
  refine ⟨load_URLs_top_shape, load_searches_top_shape, ?_, ?_⟩
  · intro rows hstr hbad
    have hv := validate_URL_rows_bad_row rows hstr hbad
    show Bind.bind (validate_URL_rows rows) (fun _ => collect_URLs rows) = .error .valueError
    rw [hv]
    rfl
  · intro rows hbad
    have hv := validate_search_rows_bad_row rows hbad
    show Bind.bind (validate_search_rows rows) (fun _ => collect_searches rows) = .error .valueError
    rw [hv]
    rfl

/-- C7, witness: a wrong top-level key, a wrong top-level key for the
search loader, a badly-keyed second URL row behind a good string-valued
first row, and a search row missing `HINT`, each rejected with
`ValueError`. -/
theorem config_validation_rejects_bad_keys_witness :
    load_URLs (some (.obj [("Bad", .null)])) = .error .valueError ∧
    load_searches (some (.obj [("Bad", .null)])) = .error .valueError ∧
    load_URLs (some (.obj [("URLs", .arr
      [.obj [("URL", .str "https://www.tideschart.com/x")], .obj [("X", .str "y")]])]))
      = .error .valueError ∧
    load_searches (some (.obj [("SEARCHES", .arr [.obj [("SEARCH", .str "a")]])]))
      = .error .valueError := by
  refine ⟨?_, ?_, ?_, ?_⟩
  · exact config_validation_rejects_bad_keys.1 _ (by intro v h; simp at h)
  · exact config_validation_rejects_bad_keys.2.1 _ (by intro v h; simp at h)
  · exact config_validation_rejects_bad_keys.2.2.1 _ (by decide) (by decide)
  · exact config_validation_rejects_bad_keys.2.2.2 _ (by decide)

/-- C10.  With no input file, `load_user_locations` loads the six built-in
default URL locations but leaves the mode at `UNKNOWN`; the per-entry
validation loop is skipped entirely (it accepts any locations value, even
one that would fail URL validation), and the `mainapp` dispatch runs
neither retrieval mode, ending with an empty weekly-tides mapping whatever
the retrievers would return. -/
theorem default_locations_leave_mode_unknown :
    load_user_locations initApp none = .ok ⟨.UNKNOWN, .arr DEFAULT_URLS⟩ ∧
    (∀ locs : JVal, validateLocations .UNKNOWN locs = .ok ()) ∧
    (∀ (fURL fMUNI : JVal → List DateTime) (locs : JVal),
        mainapp_weekly_tides .UNKNOWN locs fURL fMUNI = .ok []) := by
  exact ⟨rfl, fun _ => rfl, fun _ _ _ => rfl⟩

end Tidesapp
